import Mathlib

/-!
Verification development for the `kset` key-addressable set library.

The Go sources are shallow-embedded as follows:

* A hash-backed store (`unsafeMapStore` / `safeMapStore`, files
  `store_map_unsafe.go` and `store_map_safe.go`) is a Go map from keys to
  values.  It is modelled as an association list `List (K × V)` whose keys
  are pairwise distinct (`sWF`); `sUpsert` models `m.store[key] = value`
  (replace the existing entry, otherwise add a new one), `sDelete` models
  `delete(m.store, key)`, `sGet` models `value, ok := m.store[key]` with an
  `Option`, and `sLen` models `len(m.store)`.

* The tree-backed store of the same snapshot (`unsafeTreeMapStore`, the
  second document of `store_treemap_unsafe.go`, the one whose methods match
  the `Store` interface of `store.go`) is modelled by `TreeStore`.  In that
  source file the bodies of `Upsert` (lines 171-172) and `Delete`
  (lines 146-147) are empty, so `tUpsert` and `tDelete` return the store
  unchanged — this is deliberate fidelity to the source, not a
  simplification.

* Set views, the key-only set of `key_set.go`, the key-value set of
  `key_value_set.go`, and the `unsafeSet` of `unsafe.go` are embedded
  further below.  Go panics (nil function fields, unknown store kinds) are
  modelled with `Option`.
-/

namespace KSet

variable {K V : Type} [DecidableEq K]

/-- Membership test of the map store: `_, ok := m.store[key]`
(`store_map_unsafe.go`, `Contains`/`Get`). -/
def sContains (s : List (K × V)) (k : K) : Bool :=
  s.any (fun p => decide (p.1 = k))

/-- `Get` of the map store: `value, ok := m.store[key]`, with absence
returned as `none` (`store_map_unsafe.go` lines 77-80). -/
def sGet (s : List (K × V)) (k : K) : Option V :=
  (s.find? (fun p => decide (p.1 = k))).map Prod.snd

/-- `Upsert` of the map store: `m.store[key] = value`
(`store_map_unsafe.go` lines 86-88).  On an association list this replaces
the entry holding `k` if one exists and otherwise adds a new entry. -/
def sUpsert (k : K) (v : V) : List (K × V) → List (K × V)
  | [] => [(k, v)]
  | p :: rest => if p.1 = k then (k, v) :: rest else p :: sUpsert k v rest

/-- `Delete` of the map store: `delete(m.store, key)`
(`store_map_unsafe.go` lines 71-75). -/
def sDelete (k : K) (s : List (K × V)) : List (K × V) :=
  s.filter (fun p => decide (¬ p.1 = k))

/-- `Len` of the map store: `len(m.store)`. -/
def sLen (s : List (K × V)) : Nat := s.length

/-- Well-formedness of the association-list model of a Go map: the keys are
pairwise distinct.  Every value of Go's built-in map type satisfies this. -/
def sWF (s : List (K × V)) : Prop := (s.map Prod.fst).Nodup

/-- The tree-backed store of the current snapshot
(`store_treemap_unsafe.go`, second document: the `unsafeTreeMapStore` whose
methods implement the `Store` interface of `store.go`).  `data` models the
treemap contents in iteration order. -/
structure TreeStore (K V : Type) where
  data : List (K × V)

/-- `unsafeTreeMapStore.Upsert` (`store_treemap_unsafe.go` lines 171-172).
The body of the Go method is empty, so the store is returned unchanged. -/
def tUpsert (_k : K) (_v : V) (t : TreeStore K V) : TreeStore K V := t

/-- `unsafeTreeMapStore.Delete` (`store_treemap_unsafe.go` lines 146-147).
The body of the Go method is empty, so the store is returned unchanged. -/
def tDelete (_k : K) (t : TreeStore K V) : TreeStore K V := t

/-- `unsafeTreeMapStore.Get` (`store_treemap_unsafe.go` lines 149-151). -/
def tGet (t : TreeStore K V) (k : K) : Option V := sGet t.data k

/-- `unsafeTreeMapStore.Contains`. -/
def tContains (t : TreeStore K V) (k : K) : Bool := sContains t.data k

/-- `unsafeTreeMapStore.Len`. -/
def tLen (t : TreeStore K V) : Nat := t.data.length

/-- `unsafeTreeMapStore.Clone` (`store_treemap_unsafe.go` lines 130-140):
copies every entry into a fresh treemap. -/
def tClone (t : TreeStore K V) : TreeStore K V := ⟨t.data⟩

/-- `NewUnsafeStoreTreeMapKey` (`store_treemap_unsafe.go` lines 114-124):
builds an empty treemap store and calls `Upsert(value, struct{}{})` for
every initial value.  Since `Upsert` has an empty body, the resulting store
is always empty. -/
def NewUnsafeStoreTreeMapKey (values : List K) : TreeStore K Unit :=
  values.foldl (fun st v => tUpsert v () st) ⟨[]⟩

/-- `NewUnsafeStoreTreeMapKeyValue` (`store_treemap_unsafe.go` lines
101-112): builds an empty treemap store and calls
`Upsert(selector(value), value)` for every initial value; again the no-op
`Upsert` leaves the store empty. -/
def NewUnsafeStoreTreeMapKeyValue (sel : V → K) (vals : List V) :
    TreeStore K V :=
  vals.foldl (fun st v => tUpsert (sel v) v st) ⟨[]⟩

/-- `NewUnsafeStoreMapKey` (`src/unnamed/part_008` lines 24-34): builds a
Go map populated with every initial value mapped to the empty marker. -/
def NewUnsafeStoreMapKey (values : List K) : List (K × Unit) :=
  values.foldl (fun st v => sUpsert v () st) []

/-- `NewUnsafeMapStore` (`src/unnamed/part_008` lines 9-22): builds a Go
map populated with `data[selector(v)] = v` for every initial value. -/
def NewUnsafeMapStore (sel : V → K) (vals : List V) : List (K × V) :=
  vals.foldl (fun st v => sUpsert (sel v) v st) []

/-- Modelled from the spec: `NewStoreMapKey`, the constructor of the
thread-safe hash store for key-only sets, is called by `NewKeySet`
(`key_set.go` line 220) but its body is not among the source files.  Per
spec §6 the factory "builds a concrete `Storage`" holding the initial
elements; the lock only serializes access and has no sequential effect. -/
def NewStoreMapKey (values : List K) : List (K × Unit) :=
  values.foldl (fun st v => sUpsert v () st) []

/-- Modelled from the spec: `NewStoreMapKeyValue`, the constructor of the
thread-safe hash store for key-value sets, is called by `NewKeyValueSet`
(`key_value_set.go` line 145) but its body is not among the source files.
Per spec §6 it builds a hash store populated with `selector(v) ↦ v`. -/
def NewStoreMapKeyValue (sel : V → K) (vals : List V) : List (K × V) :=
  vals.foldl (fun st v => sUpsert (sel v) v st) []

/-- Modelled from the spec: `NewStoreTreeMapKey`, the constructor of the
thread-safe tree store for key-only sets, is called by `NewKeySet`
(`key_set.go` line 224) but its body is not among the source files.  Per
spec §6 it builds an ordered tree store holding the initial keys. -/
def NewStoreTreeMapKey (values : List K) : TreeStore K Unit :=
  ⟨values.foldl (fun st v => sUpsert v () st) []⟩

/-- Modelled from the spec: `NewStoreTreeMapKeyValue`, the constructor of
the thread-safe tree store for key-value sets, is called by
`NewKeyValueSet` (`key_value_set.go` line 161) but its body is not among
the source files.  Per spec §6 it builds an ordered tree store populated
with `selector(v) ↦ v`. -/
def NewStoreTreeMapKeyValue (sel : V → K) (vals : List V) : TreeStore K V :=
  ⟨vals.foldl (fun st v => sUpsert (sel v) v st) []⟩

/-- The `Set[K]` capability (`set.go`) that the binary key-set operations
receive as their operand: membership (`ContainsKeys`), cardinality (`Len`)
and key iteration (`IterKeys`).  For every set in the library, membership
tests against the backing store's keys and `Len` is the store length, so
the capability is determined by the operand's key sequence. -/
structure SetView (K : Type) where
  keys : List K

/-- `other.ContainsKeys(key)` for a single key. -/
def viewContains (o : SetView K) (k : K) : Bool :=
  o.keys.any (fun a => decide (a = k))

/-- `other.Len()`. -/
def viewLen (o : SetView K) : Nat := o.keys.length

/-- The key-only set of `key_set.go` (lines 200-204) backed by a hash
store.  The Go struct holds a `Store[K, struct{}]` and a factory closure
`newStore func(int) Store[K, struct{}]`; the factory is a function pointer
that can be nil (it is dropped by `Clone`), so only its presence is
relevant to behaviour and it is modelled by the Bool `newStore`.  When
present, the factory always builds a fresh `safeMapStore` (hash map),
regardless of the receiver's own backing store (`key_set.go` lines
232-238). -/
structure KeySetH (K : Type) where
  store : List (K × Unit)
  newStore : Bool

/-- The same `keySet` struct when its `store` field holds the tree store
(`NewKeySet` with `TreeMap`/`TreeMapUnsafe`). -/
structure KeySetT (K : Type) where
  store : TreeStore K Unit
  newStore : Bool

/-- `keySet.Len` (`key_set.go` lines 251-253). -/
def ksLen (s : KeySetH K) : Nat := sLen s.store

/-- `keySet.Len` for a tree-backed receiver. -/
def ktLen (s : KeySetT K) : Nat := tLen s.store

/-- `keySet.Append` (`key_set.go` lines 242-248): record the store length,
upsert every key with the empty marker, and return the length delta. -/
def ksAppend (s : KeySetH K) (keys : List K) : KeySetH K × Nat :=
  let st := keys.foldl (fun st key => sUpsert key () st) s.store
  ({ s with store := st }, sLen st - sLen s.store)

/-- `keySet.Append` for a tree-backed receiver: identical Go code, but the
`Upsert` it calls is the no-op of `store_treemap_unsafe.go`. -/
def ktAppend (s : KeySetT K) (keys : List K) : KeySetT K × Nat :=
  let st := keys.foldl (fun st key => tUpsert key () st) s.store
  ({ s with store := st }, tLen st - tLen s.store)

/-- `keySet.Clone` (`key_set.go` lines 261-265): the returned struct is
built with the cloned store only — the `newStore` factory field is left
out, so the clone's factory is nil. -/
def ksClone (s : KeySetH K) : KeySetH K :=
  { store := s.store, newStore := false }

/-- `keySet.Clone` for a tree-backed receiver; the factory is dropped the
same way. -/
def ktClone (s : KeySetT K) : KeySetT K :=
  { store := tClone s.store, newStore := false }

/-- `keySet.ContainsKeys` (`key_set.go` lines 268-275): true iff `Get`
finds every given key. -/
def ksContainsKeys (s : KeySetH K) (keys : List K) : Bool :=
  keys.all (fun key => (sGet s.store key).isSome)

/-- `keySet.Intersects` (`key_set.go` lines 288-295): scan the receiver's
keys against the operand's membership test. -/
def ksIntersects (s : KeySetH K) (other : SetView K) : Bool :=
  s.store.any (fun p => viewContains other p.1)

/-- `keySet.IsSubset` (`key_set.go` lines 365-375): false when the receiver
is larger, otherwise every receiver key must be in the operand. -/
def ksIsSubset (s : KeySetH K) (other : SetView K) : Bool :=
  if ksLen s > viewLen other then false
  else s.store.all (fun p => viewContains other p.1)

/-- `keySet.IsSuperset` (`key_set.go` lines 378-390).  The Go body is
identical to `IsSubset`: it returns false when `k.Len() > other.Len()` and
then checks that every key of the *receiver* is contained in the
*operand*. -/
def ksIsSuperset (s : KeySetH K) (other : SetView K) : Bool :=
  if ksLen s > viewLen other then false
  else s.store.all (fun p => viewContains other p.1)

/-- `keySet.IsProperSubset` (`key_set.go` lines 355-357). -/
def ksIsProperSubset (s : KeySetH K) (other : SetView K) : Bool :=
  decide (ksLen s < viewLen other) && ksIsSubset s other

/-- `keySet.IsProperSuperset` (`key_set.go` lines 360-362). -/
def ksIsProperSuperset (s : KeySetH K) (other : SetView K) : Bool :=
  decide (ksLen s > viewLen other) && ksIsSuperset s other

/-- `keySet.Difference` (`key_set.go` lines 298-309): build a fresh set
from the factory (`k.newStore(k.Len())` — a nil-function panic, modelled
as `none`, when the factory was dropped by `Clone`) and append every
receiver key that the operand does not contain. -/
def ksDifference (s : KeySetH K) (other : SetView K) :
    Option (KeySetH K) :=
  if s.newStore then
    some (s.store.foldl
      (fun diff p =>
        if viewContains other p.1 then diff else (ksAppend diff [p.1]).1)
      { store := [], newStore := true })
  else none

/-- `keySet.Intersect` (`key_set.go` lines 334-347): like `Difference`
but keeping the keys the operand does contain. -/
def ksIntersect (s : KeySetH K) (other : SetView K) :
    Option (KeySetH K) :=
  if s.newStore then
    some (s.store.foldl
      (fun acc p =>
        if viewContains other p.1 then (ksAppend acc [p.1]).1 else acc)
      { store := [], newStore := true })
  else none

/-- `keySet.Intersect` for a tree-backed receiver: the factory closure
built by `NewKeySet` always returns a `safeMapStore`, so the result is
hash-backed even though the receiver is tree-backed. -/
def ktIntersect (s : KeySetT K) (other : SetView K) :
    Option (KeySetH K) :=
  if s.newStore then
    some (s.store.data.foldl
      (fun acc p =>
        if viewContains other p.1 then (ksAppend acc [p.1]).1 else acc)
      { store := [], newStore := true })
  else none

/-- `keySet.Union` (`key_set.go` lines 455-461): clone the receiver, then
`Append` every key yielded by the operand's iterator. -/
def ksUnion (s : KeySetH K) (otherKeys : List K) : KeySetH K :=
  otherKeys.foldl (fun u key => (ksAppend u [key]).1) (ksClone s)

/-- `keySet.Union` for a tree-backed receiver: the appends go through the
no-op tree `Upsert`. -/
def ktUnion (s : KeySetT K) (otherKeys : List K) : KeySetT K :=
  otherKeys.foldl (fun u key => (ktAppend u [key]).1) (ktClone s)

/-- `keySet.Pop` (`key_set.go` lines 410-417): take the first key yielded
by the store's iterator, `Delete` it, and return it with `true`; on an
empty store return the zero value with `false`. -/
def ksPop [Inhabited K] (s : KeySetH K) : (K × Bool) × KeySetH K :=
  match s.store with
  | [] => ((default, false), s)
  | p :: _ => ((p.1, true), { s with store := sDelete p.1 s.store })

/-- The `Set[K]` view of a hash-backed key set (its `IterKeys`/`Len`/
`ContainsKeys` are all derived from the store contents). -/
def viewOfH (s : KeySetH K) : SetView K := ⟨s.store.map Prod.fst⟩

/-- The `Set[K]` view of a tree-backed key set. -/
def viewOfT (s : KeySetT K) : SetView K := ⟨s.store.data.map Prod.fst⟩

/-- The key-value set of `key_value_set.go` (lines 127-131) backed by a
hash store: a store of values keyed by selector-derived keys, a selector
function field, and a store-factory field.  `selector` and `newStore` are
Go function fields that composite literals leave nil unless set, so the
selector is an `Option` and the factory's presence is a Bool (when present
it builds an empty store of the same kind). -/
structure KVSet (K V : Type) where
  data : List (K × V)
  selector : Option (V → K)
  newStore : Bool

/-- One iteration of `keyValueSet.Append` (`key_value_set.go` lines
184-191): `key := k.selector(val); k.data.Upsert(key, val)`.  Calling a
nil selector is a Go panic, modelled as `none`. -/
def kvAppendOne (s : KVSet K V) (v : V) : Option (KVSet K V) :=
  s.selector.map (fun sel => { s with data := sUpsert (sel v) v s.data })

/-- `keyValueSet.Append` (`key_value_set.go` lines 184-191): record the
store length, upsert every value under its selector key, and return the
length delta. -/
def kvAppend (s : KVSet K V) (vals : List V) :
    Option (KVSet K V × Nat) := do
  let st ← vals.foldlM (fun acc v => kvAppendOne acc v) s
  pure (st, sLen st.data - sLen s.data)

/-- `keyValueSet.Len` (`key_value_set.go` lines 193-195). -/
def kvLen (s : KVSet K V) : Nat := sLen s.data

/-- `keyValueSet.Clone` (`key_value_set.go` lines 201-206): the literal
sets `data` (a store clone) and `selector`, but not `newStore`, so the
clone's factory is nil. -/
def kvClone (s : KVSet K V) : KVSet K V :=
  { data := s.data, selector := s.selector, newStore := false }

/-- `keyValueSet.Difference` (`key_value_set.go` lines 256-268): the
result is initialised as `&keyValueSet{data: k.data.Clone().(S)}` — a full
clone of the receiver's data with nil `selector` and nil `newStore` — and
then `Append`s every receiver value whose key the operand does not
contain (each such `Append` dereferences the nil selector). -/
def kvDifference (s : KVSet K V) (other : SetView K) :
    Option (KVSet K V) :=
  s.data.foldlM
    (fun diff p =>
      if viewContains other p.1 then pure diff else kvAppendOne diff p.2)
    { data := s.data, selector := none, newStore := false }

/-- `keyValueSet.Intersect` (`key_value_set.go` lines 292-305): build a
fresh set from the factory (`k.newStore(k.data.Len())` — nil-function
panic, modelled as `none`, when the factory is absent), threading the
receiver's selector and factory, then `Append` every receiver value whose
key the operand contains. -/
def kvIntersect (s : KVSet K V) (other : SetView K) :
    Option (KVSet K V) :=
  if s.newStore then
    s.data.foldlM
      (fun acc p =>
        if viewContains other p.1 then kvAppendOne acc p.2 else pure acc)
      { data := [], selector := s.selector, newStore := s.newStore }
  else none

/-- The `unsafeSet` of `unsafe.go` (lines 7-10): a Go map from keys to
values plus a selector.  This generation's constructors always supply the
selector, so it is a plain function field here. -/
structure USet (K V : Type) where
  data : List (K × V)
  selector : V → K

/-- `unsafeSet.Len` (`unsafe.go` lines 59-61). -/
def usLen (s : USet K V) : Nat := s.data.length

/-- `unsafeSet.Contains` (`unsafe.go` lines 79-87): all of the given
values' selector keys are present. -/
def usContains (s : USet K V) (vals : List V) : Bool :=
  vals.all (fun v => sContains s.data (s.selector v))

/-- `unsafeSet.Intersects` (`unsafe.go` lines 99-116).  When the receiver
is strictly smaller it scans its own elements and returns true on the
first element that the operand does NOT contain (the condition in the
source is `!other.Contains(elem)`); otherwise it scans the operand's
elements and returns true on the first one the receiver contains. -/
def usIntersects (s : USet K V) (other : USet K V) : Bool :=
  if usLen s < usLen other then
    s.data.any (fun p => !(usContains other [p.2]))
  else
    other.data.any (fun p => usContains s [p.2])

/-- The Go `StoreType` enumeration (`store.go` lines 23-57): an `int` with
`StoreTypeUndefined = 0` and then `HashMap`, `HashMapUnsafe`, `TreeMap`,
`TreeMapUnsafe` via iota. -/
def HashMap : Nat := 1

/-- `HashMapUnsafe` store kind (`store.go`). -/
def HashMapUnsafe : Nat := 2

/-- `TreeMap` store kind (`store.go`). -/
def TreeMap : Nat := 3

/-- `TreeMapUnsafe` store kind (`store.go`). -/
def TreeMapUnsafe : Nat := 4

/-- A key-only set as built by `NewKeySet`: hash-backed or tree-backed
depending on the requested store kind. -/
inductive BuiltKeySet (K : Type) where
  | hash : KeySetH K → BuiltKeySet K
  | tree : KeySetT K → BuiltKeySet K

/-- `NewKeySet` (`key_set.go` lines 215-239): dispatch on the store kind,
building the corresponding store; any other kind panics
(`panic(fmt.Sprintf("type not supported: %s", storeType))`), modelled as
`none`.  Every branch wires the `newStore` factory closure (which always
builds a `safeMapStore`). -/
def NewKeySet (storeType : Nat) (values : List K) :
    Option (BuiltKeySet K) :=
  if storeType = HashMap then
    some (.hash { store := NewStoreMapKey values, newStore := true })
  else if storeType = HashMapUnsafe then
    some (.hash { store := NewUnsafeStoreMapKey values, newStore := true })
  else if storeType = TreeMap then
    some (.tree { store := NewStoreTreeMapKey values, newStore := true })
  else if storeType = TreeMapUnsafe then
    some (.tree { store := NewUnsafeStoreTreeMapKey values,
                  newStore := true })
  else none

/-- A tree-backed `keyValueSet` (`key_value_set.go` lines 127-131 with the
store type parameter instantiated at a treemap store). -/
structure KVSetT (K V : Type) where
  data : TreeStore K V
  selector : Option (V → K)
  newStore : Bool

/-- A key-value set as built by `NewKeyValueSet`: hash-backed or
tree-backed depending on the requested store kind. -/
inductive BuiltKVSet (K V : Type) where
  | hash : KVSet K V → BuiltKVSet K V
  | tree : KVSetT K V → BuiltKVSet K V

/-- `NewKeyValueSet` (`key_value_set.go` lines 141-178): dispatch on the
store kind; every recognized branch builds the matching store and sets
`selector` and `newStore`; any other kind panics, modelled as `none`. -/
def NewKeyValueSet (storeType : Nat) (sel : V → K) (vals : List V) :
    Option (BuiltKVSet K V) :=
  if storeType = HashMap then
    some (.hash { data := NewStoreMapKeyValue sel vals,
                  selector := some sel, newStore := true })
  else if storeType = HashMapUnsafe then
    some (.hash { data := NewUnsafeMapStore sel vals,
                  selector := some sel, newStore := true })
  else if storeType = TreeMap then
    some (.tree { data := NewStoreTreeMapKeyValue sel vals,
                  selector := some sel, newStore := true })
  else if storeType = TreeMapUnsafe then
    some (.tree { data := NewUnsafeStoreTreeMapKeyValue sel vals,
                  selector := some sel, newStore := true })
  else none

/-! Concrete instances used by the evaluation theorems below. -/

/-- The set A = {1,2,3,4} of the reference scenario, hash-backed. -/
def c1A : KeySetH Nat :=
  { store := NewUnsafeStoreMapKey [1, 2, 3, 4], newStore := true }

/-- The subset {1,4} of the reference scenario, hash-backed. -/
def c1B : KeySetH Nat :=
  { store := NewUnsafeStoreMapKey [1, 4], newStore := true }

/-- C1: the claim asserts that `A.IsSuperset(B)` is true iff every key of
B is present in A, and that for A = {1,2,3,4}, subset = {1,4},
`A.IsProperSuperset(subset)` returns true.  Evaluating the embedded
`keySet.IsSuperset` (`key_set.go` lines 378-390) at that input: every key
of the subset is present in A, yet `IsSuperset` — whose body duplicates
`IsSubset`, returning false whenever the receiver is larger — returns
false, so `IsProperSuperset` returns false as well, contradicting the
claim, the interface documentation in `set.go` (lines 76-83), and the
repository test `Test_KeySet_Subset`. -/
theorem C1_superset_eval :
    ksContainsKeys c1A [1, 4] = true ∧
    ksIsSuperset c1A (viewOfH c1B) = false ∧
    ksIsProperSuperset c1A (viewOfH c1B) = false := by
  refine ⟨by decide, by decide, by decide⟩

/-- A = {1 ↦ 1, 2 ↦ 2} with the identity selector. -/
def c2A : KVSet Nat Nat :=
  { data := [(1, 1), (2, 2)], selector := some (fun v => v),
    newStore := true }

/-- Operand key view {2,3}. -/
def c2B : SetView Nat := ⟨[2, 3]⟩

/-- A = {1 ↦ 1} with the identity selector. -/
def c2A2 : KVSet Nat Nat :=
  { data := [(1, 1)], selector := some (fun v => v), newStore := true }

/-- Operand key view {1}. -/
def c2B2 : SetView Nat := ⟨[1]⟩

/-- C2: the claim asserts that `A.Difference(B)` on a key-value set
returns a set whose keys are exactly the keys of A not present in B.
Evaluating the embedded `keyValueSet.Difference` (`key_value_set.go`
lines 256-268): for A = {1,2}, B = {2,3} the operation panics (`none`),
because the result literal is built with a nil selector and then
`Append`ed to; and for A = {1}, B = {1}, where no `Append` is reached,
the result is a full clone of A with key list [1] instead of the empty
difference.  This contradicts the claim, the `Difference` documentation
in `key_value_set.go` (lines 48-53) and the repository test
`Test_Difference`. -/
theorem C2_difference_eval :
    kvDifference c2A c2B = none ∧
    (kvDifference c2A2 c2B2).map (fun r => r.data.map Prod.fst) =
      some [1] ∧
    (kvDifference c2A2 c2B2).map (fun r => r.newStore) = some false := by
  refine ⟨rfl, rfl, rfl⟩

/-- A = {1}, identity selector. -/
def c3A : USet Nat Nat := { data := [(1, 1)], selector := fun v => v }

/-- B = {2,3}, disjoint from {1} and strictly larger. -/
def c3B : USet Nat Nat :=
  { data := [(2, 2), (3, 3)], selector := fun v => v }

/-- A = {1}, identity selector. -/
def c3A2 : USet Nat Nat := { data := [(1, 1)], selector := fun v => v }

/-- B = {1,2}: shares key 1 with {1} and is strictly larger. -/
def c3B2 : USet Nat Nat :=
  { data := [(1, 1), (2, 2)], selector := fun v => v }

/-- C3: the claim asserts that `A.Intersects(B)` is true iff the two sets
share a key, regardless of which set is smaller, and false on disjoint
sets.  Evaluating the embedded `unsafeSet.Intersects` (`unsafe.go` lines
99-116): in the branch taken when the receiver is strictly smaller the
membership test is negated (`!other.Contains(elem)` returns true), so the
disjoint pair A = {1}, B = {2,3} yields true, and the overlapping pair
A = {1}, B = {1,2} yields false — both directions of the claimed
equivalence fail, contradicting the `Intersects` documentation of the
`Set` interface and spec §4.4. -/
theorem C3_intersects_eval :
    usIntersects c3A c3B = true ∧
    (c3A.data.map Prod.fst).all (fun k => !(sContains c3B.data k)) =
      true ∧
    usIntersects c3A2 c3B2 = false ∧
    sContains c3A2.data 1 = true ∧
    sContains c3B2.data 1 = true := by
  refine ⟨rfl, rfl, rfl, rfl, rfl⟩

/-- S = {1,2}, hash-backed, with its store factory present. -/
def c4A : KeySetH Nat :=
  { store := NewUnsafeStoreMapKey [1, 2], newStore := true }

/-- S = {1 ↦ 1}, identity selector, factory present. -/
def c4KV : KVSet Nat Nat :=
  { data := [(1, 1)], selector := some (fun v => v), newStore := true }

/-- C4: the claim asserts that every derived set retains the selector and
the internal store factory, so that later operations on it complete
without failure.  Evaluating the embedded `Clone`s: `keySet.Clone`
(`key_set.go` lines 261-265) and `keyValueSet.Clone` (`key_value_set.go`
lines 201-206) both drop the `newStore` factory, so `Difference` on a
cloned key set and `Intersect` on a cloned key-value set dereference a
nil function and panic (`none`), while the same operations on the
original succeed — contradicting the claim and the spec §4.5 requirement
to propagate these fields into every derived set. -/
theorem C4_clone_eval :
    (ksClone c4A).newStore = false ∧
    ksDifference (ksClone c4A) (⟨[]⟩ : SetView Nat) = none ∧
    (ksDifference c4A (⟨[]⟩ : SetView Nat)).isSome = true ∧
    (kvClone c4KV).newStore = false ∧
    kvIntersect (kvClone c4KV) (⟨[1]⟩ : SetView Nat) = none ∧
    (kvIntersect c4KV (⟨[1]⟩ : SetView Nat)).isSome = true := by
  refine ⟨rfl, rfl, rfl, rfl, rfl, rfl⟩

/-- The empty tree store. -/
def c5Tree : TreeStore Nat Nat := ⟨[]⟩

/-- C5: the claim asserts that for every backing store, `Upsert(k, v)`
makes `Get(k)` return `(v, true)` and increases `Len` by 1 when k was
absent.  Evaluating the embedded stores: `unsafeTreeMapStore.Upsert`
(`store_treemap_unsafe.go` lines 171-172) has an empty body, so after
`Upsert(1, 42)` on the empty tree store `Get(1)` is still absent and
`Len` is still 0, while the hash store `Upsert`
(`store_map_unsafe.go` lines 86-88) behaves as the claim states.  The
tree store contradicts the `Storage` contract of spec §4.1 and the
repository tests that run every store kind. -/
theorem C5_upsert_eval :
    tGet (tUpsert 1 42 c5Tree) 1 = none ∧
    tLen (tUpsert 1 42 c5Tree) = 0 ∧
    sGet (sUpsert 1 42 ([] : List (Nat × Nat))) 1 = some 42 ∧
    sLen (sUpsert 1 42 ([] : List (Nat × Nat))) = 1 := by
  refine ⟨rfl, rfl, rfl, rfl⟩

/-- An empty key set built by `NewKeySet(TreeMapUnsafe)`. -/
def c6A : KeySetT Nat :=
  { store := NewUnsafeStoreTreeMapKey [], newStore := true }

/-- An empty hash-backed key set for comparison. -/
def c6H : KeySetH Nat := { store := [], newStore := true }

/-- C6: the claim asserts that `Append` returns exactly the number of
distinct keys of the batch not previously present, for every set.
Evaluating the embedded `keySet.Append` (`key_set.go` lines 242-248) on a
set built by `NewKeySet(TreeMapUnsafe)`: the key 1 is absent, yet
`Append(1)` returns 0 and leaves the set empty, because the `Upsert` of
`store_treemap_unsafe.go` is a no-op; the same `Append` code over the
hash store returns 1 as claimed.  The tree-backed behaviour contradicts
the `Append` documentation (`key_set.go` lines 15-20) and the repository
test `Test_KeySet_Append`, which asserts the count for every store
kind. -/
theorem C6_append_eval :
    tContains c6A.store 1 = false ∧
    (ktAppend c6A [1]).2 = 0 ∧
    ktLen (ktAppend c6A [1]).1 = 0 ∧
    (ksAppend c6H [1]).2 = 1 := by
  refine ⟨rfl, rfl, rfl, rfl⟩

/-- A: the empty key set built by `NewKeySet(TreeMapUnsafe)`. -/
def c7A : KeySetT Nat :=
  { store := NewUnsafeStoreTreeMapKey [], newStore := true }

/-- B: the key set {1} built over the hash store. -/
def c7B : KeySetH Nat :=
  { store := NewUnsafeStoreMapKey [1], newStore := true }

/-- C7: the claim asserts the inclusion-exclusion identity
`A.Union(B).Len() = A.Len() + B.Len() - A.Intersect(B).Len()` for all
key-only sets A and B.  Evaluating the embedded `keySet.Union`
(`key_set.go` lines 455-461) with A the empty `TreeMapUnsafe`-backed set
and B the hash-backed set {1}: `Union` clones the tree store of A and
`Append`s the keys of B through the no-op tree `Upsert`, so the union has
length 0, while A.Len() + B.Len() - A.Intersect(B).Len() = 0 + 1 - 0 = 1.
This contradicts the claim and the repository test `Test_KeySet_Union`,
which checks the union contents for every store kind. -/
theorem C7_union_eval :
    ktLen (ktUnion c7A (viewOfH c7B).keys) = 0 ∧
    (ktIntersect c7A (viewOfH c7B)).map ksLen = some 0 ∧
    ktLen c7A = 0 ∧
    ksLen c7B = 1 ∧
    ktLen (ktUnion c7A (viewOfH c7B).keys) ≠
      ktLen c7A + ksLen c7B -
        ((ktIntersect c7A (viewOfH c7B)).map ksLen).getD 0 := by
  refine ⟨rfl, rfl, rfl, rfl, by decide⟩

/-- Helper for C8: deleting the head key of a well-formed store removes
exactly the head entry. -/
theorem sDelete_head (k : K) (u : V) (t : List (K × V))
    (hk : k ∉ t.map Prod.fst) : sDelete k ((k, u) :: t) = t := by
  have h1 : sDelete k ((k, u) :: t) = sDelete k t := by
    simp [sDelete, List.filter_cons]
  rw [h1]
  apply List.filter_eq_self.mpr
  intro p hp
  have hne : p.1 ≠ k := by
    intro he
    exact hk (List.mem_map.mpr ⟨p, hp, he⟩)
  simpa using hne

/-- C8: `Pop` on an empty set returns the zero value and `found = false`;
on a non-empty set it returns some contained key with `found = true`,
removes exactly that key (the length drops by 1, the popped key is gone,
every other key keeps its stored value), and absence is reported through
the boolean — `ksPop` is a total function, never an error.  This embeds
`keySet.Pop` (`key_set.go` lines 410-417); `unsafeSet.Pop` (`unsafe.go`
lines 212-220) is the same algorithm directly over a Go map. -/
theorem C8_pop_spec [Inhabited K] (s : KeySetH K) (h : sWF s.store) :
    (s.store = [] → ksPop s = ((default, false), s)) ∧
    (s.store ≠ [] →
      (ksPop s).1.2 = true ∧
      sContains s.store (ksPop s).1.1 = true ∧
      ksLen (ksPop s).2 + 1 = ksLen s ∧
      sContains ((ksPop s).2).store (ksPop s).1.1 = false ∧
      ∀ a, a ≠ (ksPop s).1.1 →
        sGet ((ksPop s).2).store a = sGet s.store a) := by
  obtain ⟨st, ns⟩ := s
  cases st with
  | nil =>
    exact ⟨fun _ => rfl, fun hne => absurd rfl hne⟩
  | cons p t =>
    obtain ⟨k, u⟩ := p
    have hnd := h
    simp only [sWF, List.map_cons, List.nodup_cons] at hnd
    obtain ⟨hk, -⟩ := hnd
    have hdel : sDelete k ((k, u) :: t) = t := sDelete_head k u t hk
    refine ⟨fun hc => by simp at hc, fun _ => ?_⟩
    refine ⟨rfl, ?_, ?_, ?_, ?_⟩
    · simp [ksPop, sContains]
    · simp [ksPop, ksLen, sLen, hdel]
    · simp only [ksPop]
      rw [hdel]
      simp only [sContains, List.any_eq_false, decide_eq_true_eq]
      intro q hq he
      exact hk (List.mem_map.mpr ⟨q, hq, he⟩)
    · intro a ha
      simp only [ksPop]
      rw [hdel]
      simp only [sGet]
      rw [List.find?_cons_of_neg]
      simp only [decide_eq_true_eq]
      intro he
      exact ha (he.symm)

/-- A concrete non-empty well-formed key set for the C8 witness. -/
def popSample : KeySetH Nat := { store := [(1, ())], newStore := true }

/-- Witness for C8: instantiating `C8_pop_spec` at the one-element set
{1} and discharging its hypotheses concretely. -/
theorem C8_pop_spec_witness :
    (ksPop popSample).1.2 = true ∧
    ksLen (ksPop popSample).2 + 1 = ksLen popSample := by
  have h := C8_pop_spec popSample (by unfold sWF; decide)
  exact ⟨(h.2 (by decide)).1, (h.2 (by decide)).2.2.1⟩

/-- C9: constructing a set with a store kind outside the four recognized
kinds fails fast (the Go constructors hit the `default` branch and panic,
modelled as `none`), and each of the four recognized kinds constructs
without panicking, for both `NewKeySet` (`key_set.go` lines 215-239) and
`NewKeyValueSet` (`key_value_set.go` lines 141-178). -/
theorem C9_store_kind_dispatch (t : Nat) (values : List K) (sel : V → K)
    (vals : List V) :
    ((NewKeySet t values).isSome ↔
      (t = HashMap ∨ t = HashMapUnsafe ∨ t = TreeMap ∨
        t = TreeMapUnsafe)) ∧
    ((NewKeyValueSet t sel vals).isSome ↔
      (t = HashMap ∨ t = HashMapUnsafe ∨ t = TreeMap ∨
        t = TreeMapUnsafe)) := by
  constructor
  · unfold NewKeySet
    split_ifs with h1 h2 h3 h4 <;> simp_all
  · unfold NewKeyValueSet
    split_ifs with h1 h2 h3 h4 <;> simp_all

end KSet
